import Mathlib

/-!
Verification of the structured-error subsystem of romber2001/go-util
(the `ErrMessage` type: construction, stack inheritance, rendering,
parameter binding, and the nil-collapsing query `ErrorOrNil`).

The Go code is shallowly embedded:

* `GoErr` is the closed universe of error values that can sit behind the
  Go `error` interface in this subsystem: a primitive error (optionally
  carrying a stack, as `pingcap/errors` values do), a typed-nil
  `*multierror.Error` stored in a non-nil interface, a non-nil
  multi-error aggregate, and an `ErrMessage`.
* A Go `error` interface value is `Option GoErr` (`none` is the nil
  interface; `some .multiNil` is a non-nil interface holding a nil
  `*multierror.Error` pointer, for which `err != nil` is true in Go).
* Stack traces are `List String` (one frame per entry); stack capture is
  environment input and is therefore passed as an explicit parameter
  where the Go code calls `errors.NewStack(...).StackTrace()`.
* `fmt.Sprintf` is modelled character by character (`fmtChars`) for the
  verbs `%s`, `%d` and `%%` together with Go's mismatch markers
  (`%!s(MISSING)`, `%!(EXTRA ...)`, `%!s(int=...)`, `%!(NOVERB)`);
  the templates of this subsystem use exactly these verbs.
-/

/-- A Go `interface\x7b\x7d` argument value as passed to `Specify`/`Sprintf`:
the repository binds strings and integers. -/
inductive GoVal where
  | str (s : String)
  | int (i : Int)
deriving DecidableEq

/-- Decimal rendering of a Go `int`, as produced by the `%d` verb. -/
def goIntDec (i : Int) : String :=
  if i < 0 then "-" ++ Nat.repr i.natAbs else Nat.repr i.natAbs

/-- The `type=value` description Go prints for an operand inside
mismatch markers. -/
def extraDesc : GoVal → List Char
  | .str s => "string=".data ++ s.data
  | .int i => "int=".data ++ (goIntDec i).data

/-- Comma-separated operand descriptions inside a `%!(EXTRA ...)` marker. -/
def extraList : List GoVal → List Char
  | [] => []
  | [a] => extraDesc a
  | a :: as => extraDesc a ++ ", ".data ++ extraList as

/-- The `%!(EXTRA ...)` marker Go appends when operands remain after the
format string is exhausted (empty when no operand remains). -/
def extraChars : List GoVal → List Char
  | [] => []
  | a :: as => "%!(EXTRA ".data ++ extraList (a :: as) ++ [')']

/-- One verb applied to one operand: `%s` on a string substitutes it,
`%d` on an int prints its decimal form, and any type or verb mismatch
degrades to Go's `%!verb(type=value)` marker. -/
def applyVerb (v : Char) (a : GoVal) : List Char :=
  if v = 's' then
    match a with
    | .str s => s.data
    | .int i => "%!s(int=".data ++ (goIntDec i).data ++ [')']
  else if v = 'd' then
    match a with
    | .str s => "%!d(string=".data ++ s.data ++ [')']
    | .int i => (goIntDec i).data
  else
    '%' :: '!' :: v :: '(' :: (extraDesc a ++ [')'])

/-- The `%!verb(MISSING)` marker Go prints for a verb with no operand left. -/
def missingFor (v : Char) : List Char :=
  '%' :: '!' :: v :: "(MISSING)".data

/-- The `%!(NOVERB)` marker Go prints for a `%` that ends the format string. -/
def noVerbChars : List Char :=
  "%!(NOVERB)".data

/-- Character-level model of `fmt.Sprintf`: literal characters are copied,
`%%` emits `%`, a verb consumes one operand (or emits a `MISSING` marker),
a trailing `%` emits `NOVERB`, and leftover operands emit an `EXTRA`
marker at the end. -/
def fmtChars : List Char → List GoVal → List Char
  | [], as => extraChars as
  | c :: rest, as =>
    if c = '%' then
      match rest with
      | [] => noVerbChars ++ extraChars as
      | v :: rest' =>
        if v = '%' then '%' :: fmtChars rest' as
        else
          match as with
          | [] => missingFor v ++ fmtChars rest' []
          | a :: as' => applyVerb v a ++ fmtChars rest' as'
    else c :: fmtChars rest as

/-- Model of `fmt.Sprintf` on `String`. -/
def goSprintf (format : String) (args : List GoVal) : String :=
  ⟨fmtChars format.data args⟩

/-- Number of operand-consuming verbs in a format string (everything
except `%%` and a trailing lone `%`). -/
def verbCount : List Char → Nat
  | [] => 0
  | c :: rest =>
    if c = '%' then
      match rest with
      | [] => 0
      | v :: rest' => if v = '%' then verbCount rest' else verbCount rest' + 1
    else verbCount rest

/-- The closed universe of Go `error` values occurring in this subsystem.

* `prim msg stack`: a primitive error with message `msg`; `stack` is
  `some frames` when the value implements the `errors.StackTracer`
  interface of `pingcap/errors` (e.g. was created by `errors.New`),
  `none` for a plain stdlib error.
* `multiNil`: a nil `*multierror.Error` pointer held in a non-nil
  interface (the type assertion `err.(*multierror.Error)` succeeds on it).
* `multi children`: a non-nil `*multierror.Error` whose `WrappedErrors()`
  is `children`, in insertion order.
* `errMsg ...`: a `*config.ErrMessage` with its five fields. -/
inductive GoErr where
  | prim (msg : String) (stack : Option (List String))
  | multiNil
  | multi (children : List GoErr)
  | errMsg (header : String) (errCode : Int) (raw : String)
      (err : Option GoErr) (stack : List String)

/-- The `config.ErrMessage` struct: Header, ErrCode, Raw, Err, Stack. -/
structure ErrMessage where
  Header : String
  ErrCode : Int
  Raw : String
  Err : Option GoErr
  Stack : List String

/-- View an `ErrMessage` as a value behind the Go `error` interface. -/
def ErrMessage.toGoErr (e : ErrMessage) : GoErr :=
  .errMsg e.Header e.ErrCode e.Raw e.Err e.Stack

mutual

/-- Model of `pingcap/errors.HasStack` (equivalently: the walk of
`GetStackTracer` finds a `StackTracer`). A primitive error is a tracer
iff it carries a stack; `*ErrMessage` always has a `StackTrace` method
and so is always a tracer; a multi-error aggregate exposes a stack iff
one of its children (in order, searched deeply) does, which is the
spec's delegation of stack queries on an aggregate to its first
stack-bearing child; a typed-nil aggregate exposes none. -/
def hasTracer : GoErr → Bool
  | .prim _ s => s.isSome
  | .multiNil => false
  | .multi cs => hasTracerL cs
  | .errMsg _ _ _ _ _ => true

/-- `hasTracer` over the children list of an aggregate. -/
def hasTracerL : List GoErr → Bool
  | [] => false
  | c :: cs => hasTracer c || hasTracerL cs

end

mutual

/-- Model of `errors.GetStackTracer(e).StackTrace()`: `none` when no
stack tracer is found (in Go, forcing `.StackTrace()` on the nil
result would panic) or when the found tracer's own `StackTrace()`
call panics; `some frames` otherwise. -/
def gstST : GoErr → Option (List String)
  | .prim _ s => s
  | .multiNil => none
  | .multi cs => gstSTL cs
  | .errMsg _ _ _ err st => emST err st

/-- `gstST` over the children of an aggregate: the first child that
carries a tracer supplies the stack. -/
def gstSTL : List GoErr → Option (List String)
  | [] => none
  | c :: cs => if hasTracer c then gstST c else gstSTL cs

/-- Embedding of `(*ErrMessage).StackTrace` applied to the `Err` and
`Stack` fields: when `Err` is a non-nil `*multierror.Error` with at
least one child, delegate to `GetStackTracer` of child 0; in every
other case return the node's own stack. -/
def emST : Option GoErr → List String → Option (List String)
  | some (.multi (c :: _)), _ => gstST c
  | _, st => some st

end

/-- Embedding of `(*ErrMessage).StackTrace`. -/
def ErrMessage.StackTrace (e : ErrMessage) : Option (List String) :=
  emST e.Err e.Stack

/-- Embedding of `(*ErrMessage).Code`:
`fmt.Sprintf("%s-%d", e.Header, e.ErrCode)`. -/
def goCode (h : String) (c : Int) : String :=
  goSprintf "%s-%d" [.str h, .int c]

/-- `Code` as a method. -/
def ErrMessage.Code (e : ErrMessage) : String :=
  goCode e.Header e.ErrCode

mutual

/-- `Error()` of a `GoErr` behind the interface. For an `ErrMessage`
this is the source's `Error` method: the head line
`fmt.Sprintf("%s: %s\n", e.Code(), e.Raw)` followed by the wrapped
error's `Error()` text when `Err` is non-nil. For an aggregate the
text comes from the external `go-multierror` fork; it is modelled
from the spec ("rendering an aggregate concatenates the children's
compact texts in insertion order"); no claim depends on its exact
shape. A typed-nil aggregate renders as the empty string here. -/
def errString : GoErr → String
  | .prim m _ => m
  | .multiNil => ""
  | .multi cs => errStringL cs
  | .errMsg h c r err _ =>
    match err with
    | some w => goSprintf "%s: %s\n" [.str (goCode h c), .str r] ++ errString w
    | none => goSprintf "%s: %s\n" [.str (goCode h c), .str r]

/-- `errString` concatenated over aggregate children, in order. -/
def errStringL : List GoErr → String
  | [] => ""
  | c :: cs => errString c ++ errStringL cs

end

/-- Embedding of `(*ErrMessage).Error`. -/
def ErrMessage.Error (e : ErrMessage) : String :=
  match e.Err with
  | some w => goSprintf "%s: %s\n" [.str e.Code, .str e.Raw] ++ errString w
  | none => goSprintf "%s: %s\n" [.str e.Code, .str e.Raw]

/-- Embedding of the `message` text that `(*ErrMessage).Format` writes
for the `s` verb (and for `v` without `+`, which falls through to `s`). -/
def ErrMessage.formatS (e : ErrMessage) : String :=
  match e.Err with
  | some w => goSprintf "%s: %s\n" [.str e.Code, .str e.Raw] ++ errString w
  | none => goSprintf "%s: %s\n" [.str e.Code, .str e.Raw]

/-- Embedding of the private constructor `newErrMessage`: a plain
five-field record build. -/
def newErrMessage (header : String) (errCode : Int) (raw : String)
    (err : Option GoErr) (stack : List String) : ErrMessage :=
  ⟨header, errCode, raw, err, stack⟩

/-- Embedding of the public constructor `NewErrMessage`. `fresh` is the
stack that `errors.NewStack(defaultCallerSkip).StackTrace()` would
capture at the call site (environment input, hence a parameter). The
result is `none` exactly when the Go code would panic: `err` exposes a
stack tracer whose `StackTrace()` call fails. -/
def NewErrMessage (header : String) (errCode : Int) (raw : String)
    (err : Option GoErr) (fresh : List String) : Option ErrMessage :=
  match err with
  | some w =>
    if hasTracer w then (gstST w).map (newErrMessage header errCode raw (some w))
    else some (newErrMessage header errCode raw (some w) fresh)
  | none => some (newErrMessage header errCode raw none fresh)

/-- Embedding of `(*ErrMessage).Clone`. -/
def ErrMessage.Clone (e : ErrMessage) : ErrMessage :=
  newErrMessage e.Header e.ErrCode e.Raw e.Err e.Stack

/-- Embedding of `(*ErrMessage).Specify`: `e.Raw = fmt.Sprintf(e.Raw, ins...)`.
In Go this mutates the receiver in place; the embedding returns the
updated record. -/
def ErrMessage.Specify (e : ErrMessage) (ins : List GoVal) : ErrMessage :=
  { e with Raw := goSprintf e.Raw ins }

/-- Embedding of `(*ErrMessage).Renew`: clone, then specify the clone. -/
def ErrMessage.Renew (e : ErrMessage) (ins : List GoVal) : ErrMessage :=
  (e.Clone).Specify ins

/-- Embedding of `(*ErrMessage).ErrorOrNil`. The argument is the
receiver pointer: `none` is a nil `*ErrMessage`. -/
def ErrMessage.ErrorOrNil : Option ErrMessage → Option ErrMessage
  | none => none
  | some e => if e.Header = "" ∨ e.ErrCode = 0 then none else some e

/-- Embedding of `(*ErrMessage).String`. -/
def ErrMessage.String (e : ErrMessage) : String :=
  e.Error

/-- One observable event of `(*ErrMessage).Format` under the `+v` verb:
a text write (`io.WriteString`), a stack-trace section
(`StackTrace.Format`), or delegation to the external aggregate
formatter (`merr.Format`; `none` is a typed-nil receiver). -/
inductive VItem where
  | text (s : String)
  | stackSec (frames : List String)
  | multiSec (children : Option (List GoErr))

/-- Embedding of `(*ErrMessage).Format` for the `+v` verb, as the
sequence of events it emits: the head line is written, then — when
`Err` is non-nil — the method returns after delegating to the
aggregate formatter, or recursing into a wrapped `*ErrMessage`, or
writing a primitive error's text followed by its stack section when it
has one; only when `Err` is nil is the node's own stack section
emitted. (Non-`errMsg` values have no `Format` method; the catch-all
case is unused.) -/
def goFormatV : GoErr → List VItem
  | .errMsg h c r none st =>
    [VItem.text (goSprintf "%s: %s\n" [.str (goCode h c), .str r]), VItem.stackSec st]
  | .errMsg h c r (some .multiNil) _ =>
    [VItem.text (goSprintf "%s: %s\n" [.str (goCode h c), .str r]), VItem.multiSec none]
  | .errMsg h c r (some (.multi cs)) _ =>
    [VItem.text (goSprintf "%s: %s\n" [.str (goCode h c), .str r]), VItem.multiSec (some cs)]
  | .errMsg h c r (some (w@(.errMsg _ _ _ _ _))) _ =>
    VItem.text (goSprintf "%s: %s\n" [.str (goCode h c), .str r]) :: goFormatV w
  | .errMsg h c r (some (.prim m none)) _ =>
    [VItem.text (goSprintf "%s: %s\n" [.str (goCode h c), .str r]),
      VItem.text (goSprintf "%s\n" [.str m])]
  | .errMsg h c r (some (.prim m (some fr))) _ =>
    [VItem.text (goSprintf "%s: %s\n" [.str (goCode h c), .str r]),
      VItem.text (goSprintf "%s\n" [.str m]), VItem.stackSec fr]
  | .prim _ _ => []
  | .multiNil => []
  | .multi _ => []

/-- `(*ErrMessage).Format` for `+v`, as a method. -/
def ErrMessage.FormatV (e : ErrMessage) : List VItem :=
  goFormatV e.toGoErr

/-- Number of stack-trace sections among the emitted events. -/
def stackSecCount : List VItem → Nat
  | [] => 0
  | VItem.stackSec _ :: rest => stackSecCount rest + 1
  | _ :: rest => stackSecCount rest

/-- The two-character prefix every Go formatting error marker starts with. -/
def markerC : List Char := ['%', '!']

/-- Whether the Go type assertion `e.Err.(*multierror.Error)` succeeds;
it does for nil and non-nil aggregate pointers alike. -/
def isMultiPtr : Option GoErr → Bool
  | some (.multi _) => true
  | some .multiNil => true
  | _ => false

/-- A string value is nothing but its character list. -/
theorem strEqOfData {s t : String} (h : s.data = t.data) : s = t := by
  cases s
  cases t
  exact congrArg String.mk h

/-- `String.append` concatenates the character lists. -/
theorem strData_append (s t : String) : (s ++ t).data = s.data ++ t.data := rfl

/-- A marker sitting at the front of a list is inside it. -/
theorem marker_here (r t : List Char) : markerC <:+: ('%' :: '!' :: r) ++ t :=
  ⟨[], r ++ t, by simp [markerC]⟩

/-- Being inside a list is stable under prepending. -/
theorem marker_shift (s : List Char) {t : List Char} (h : markerC <:+: t) :
    markerC <:+: s ++ t := by
  obtain ⟨u, v, huv⟩ := h
  exact ⟨s ++ u, v, by simp [← huv, List.append_assoc]⟩

/-- An `EXTRA` marker always contains the marker head. -/
theorem marker_extra (a : GoVal) (as : List GoVal) : markerC <:+: extraChars (a :: as) := by
  show markerC <:+: "%!(EXTRA ".data ++ extraList (a :: as) ++ [')']
  have h : "%!(EXTRA ".data = '%' :: '!' :: "(EXTRA ".data := rfl
  rw [h]
  exact ⟨[], "(EXTRA ".data ++ extraList (a :: as) ++ [')'], by simp [markerC]⟩

/-- Exhausted format with operands left over yields a marker. -/
theorem marker_nil (as : List GoVal) (hne : verbCount [] ≠ as.length) :
    markerC <:+: fmtChars [] as := by
  match as with
  | [] => simp [verbCount] at hne
  | a :: as' => exact marker_extra a as'

/-- Bounded-length form of the mismatch lemma, for induction. -/
theorem marker_of_mismatch_aux (n : Nat) :
    ∀ (f : List Char) (as : List GoVal), f.length ≤ n →
      verbCount f ≠ as.length → markerC <:+: fmtChars f as := by
  induction n with
  | zero =>
    intro f as hf hne
    have hfe : f = [] := List.eq_nil_of_length_eq_zero (Nat.le_zero.mp hf)
    subst hfe
    exact marker_nil as hne
  | succ n ih =>
    intro f as hf hne
    match f with
    | [] => exact marker_nil as hne
    | c :: rest =>
      by_cases hc : c = '%'
      · subst hc
        match rest with
        | [] =>
          show markerC <:+: noVerbChars ++ extraChars as
          exact marker_here "(NOVERB)".data (extraChars as)
        | v :: rest' =>
          by_cases hv : v = '%'
          · subst hv
            show markerC <:+: '%' :: fmtChars rest' as
            have hcount : verbCount ('%' :: '%' :: rest') = verbCount rest' := rfl
            refine marker_shift ['%'] (ih rest' as ?_ ?_)
            · have h2 := hf
              simp only [List.length_cons] at h2
              omega
            · rw [hcount] at hne
              exact hne
          · match as with
            | [] =>
              have hstep : fmtChars ('%' :: v :: rest') [] =
                  missingFor v ++ fmtChars rest' [] := by
                show (if v = '%' then '%' :: fmtChars rest' []
                      else missingFor v ++ fmtChars rest' []) = _
                rw [if_neg hv]
              rw [hstep]
              exact marker_here (v :: "(MISSING)".data) (fmtChars rest' [])
            | a :: as' =>
              have hstep : fmtChars ('%' :: v :: rest') (a :: as') =
                  applyVerb v a ++ fmtChars rest' as' := by
                show (if v = '%' then '%' :: fmtChars rest' (a :: as')
                      else applyVerb v a ++ fmtChars rest' as') = _
                rw [if_neg hv]
              have hcount : verbCount ('%' :: v :: rest') = verbCount rest' + 1 := by
                show (if v = '%' then verbCount rest' else verbCount rest' + 1) = _
                rw [if_neg hv]
              rw [hstep]
              refine marker_shift (applyVerb v a) (ih rest' as' ?_ ?_)
              · have h2 := hf
                simp only [List.length_cons] at h2
                omega
              · rw [hcount] at hne
                simp only [List.length_cons] at hne
                omega
      · have hstep : fmtChars (c :: rest) as = c :: fmtChars rest as := by
          rw [fmtChars.eq_def]
          simp only [if_neg hc]
        have hcount : verbCount (c :: rest) = verbCount rest := by
          rw [verbCount.eq_def]
          simp only [if_neg hc]
        rw [hstep]
        refine marker_shift [c] (ih rest as ?_ ?_)
        · have h2 := hf
          simp only [List.length_cons] at h2
          omega
        · rw [hcount] at hne
          exact hne

/-- A format/operand count mismatch puts a Go error marker in the output. -/
theorem marker_of_mismatch (f : List Char) (as : List GoVal)
    (hne : verbCount f ≠ as.length) : markerC <:+: fmtChars f as :=
  marker_of_mismatch_aux f.length f as le_rfl hne

/-- The head line `fmt.Sprintf("%s: %s\n", a, b)` is plain concatenation. -/
theorem sprintf_head (a b : String) :
    goSprintf "%s: %s\n" [.str a, .str b] = a ++ ": " ++ b ++ "\n" := by
  apply strEqOfData
  have h1 : (goSprintf "%s: %s\n" [.str a, .str b]).data
      = a.data ++ ':' :: ' ' :: (b.data ++ '\n' :: []) := rfl
  have h2 : ": ".data = [':', ' '] := rfl
  have h3 : "\n".data = ['\n'] := rfl
  rw [h1, strData_append, strData_append, strData_append, h2, h3]
  simp

/-- C9: calling `ErrorOrNil` on a nil `*ErrMessage` receiver returns nil
rather than dereferencing the receiver, so a nil node is treated as
absent. -/
theorem c9_nil_receiver : ErrMessage.ErrorOrNil none = none := rfl

/-- C10: when the wrapped error is a nil aggregate pointer or an
aggregate with zero children, `StackTrace()` falls back to the node's
own `Stack` field; the first-child access is guarded and unreachable
unless the aggregate has at least one child. -/
theorem c10_empty_aggregate_guard (h : String) (c : Int) (r : String) (st : List String) :
    (ErrMessage.mk h c r (some GoErr.multiNil) st).StackTrace = some st
  ∧ (ErrMessage.mk h c r (some (GoErr.multi [])) st).StackTrace = some st :=
  ⟨rfl, rfl⟩

/-- C1 counterexample: a node with non-empty Header "X" and ErrCode 0 —
the claim says `ErrorOrNil` returns the node itself (Header non-empty),
but the code returns nil because the ErrCode is zero. -/
theorem c1_counterexample :
    (ErrMessage.mk "X" 0 "m" none []).Header ≠ ""
    ∧ ErrMessage.ErrorOrNil (some (ErrMessage.mk "X" 0 "m" none [])) = none :=
  ⟨by decide, rfl⟩

/-- C1 amended: for a non-nil node, `ErrorOrNil` returns nil iff the
Header is empty OR the ErrCode is 0, and returns the node itself iff
the Header is non-empty AND the ErrCode is non-zero. -/
theorem c1_error_or_nil (e : ErrMessage) :
    (ErrMessage.ErrorOrNil (some e) = none ↔ (e.Header = "" ∨ e.ErrCode = 0))
  ∧ (ErrMessage.ErrorOrNil (some e) = some e ↔ ¬(e.Header = "" ∨ e.ErrCode = 0)) := by
  unfold ErrMessage.ErrorOrNil
  by_cases hcond : e.Header = "" ∨ e.ErrCode = 0
  · simp [hcond]
  · simp [hcond]

/-- C8: `Code()` is exactly the Header, a single hyphen, and the decimal
representation of the ErrCode. -/
theorem c8_code_concat (e : ErrMessage) :
    e.Code = e.Header ++ "-" ++ goIntDec e.ErrCode := by
  apply strEqOfData
  have h1 : (e.Code).data = e.Header.data ++ '-' :: ((goIntDec e.ErrCode).data ++ []) := rfl
  have h2 : "-".data = ['-'] := rfl
  rw [h1, strData_append, strData_append, h2]
  simp

/-- C5: `StackTrace()` delegates to `GetStackTracer` of the first child
(in insertion order) when the wrapped error is a non-nil non-empty
aggregate, and returns the node's own `Stack` whenever the wrapped
error is not an aggregate pointer at all. -/
theorem c5_stack_delegation (h : String) (c : Int) (r : String) (st : List String) :
    (∀ (w : GoErr) (cs : List GoErr),
        (ErrMessage.mk h c r (some (GoErr.multi (w :: cs))) st).StackTrace = gstST w)
  ∧ (∀ err : Option GoErr, isMultiPtr err = false →
        (ErrMessage.mk h c r err st).StackTrace = some st) := by
  refine ⟨fun w cs => rfl, ?_⟩
  intro err hmp
  match err with
  | none => rfl
  | some (.prim m s) => rfl
  | some .multiNil => simp [isMultiPtr] at hmp
  | some (.multi cs) => simp [isMultiPtr] at hmp
  | some (.errMsg h' c' r' e' s') => rfl

/-- Witness for C5 at concrete inputs. -/
theorem c5_witness :
    isMultiPtr (none : Option GoErr) = false
    ∧ (ErrMessage.mk "H" 1 "m" none ["f1"]).StackTrace = some ["f1"]
    ∧ (ErrMessage.mk "H" 1 "m"
        (some (GoErr.multi [GoErr.prim "boom" (some ["g1"])])) ["f1"]).StackTrace =
        gstST (GoErr.prim "boom" (some ["g1"])) :=
  ⟨rfl, (c5_stack_delegation "H" 1 "m" ["f1"]).2 none rfl,
    (c5_stack_delegation "H" 1 "m" ["f1"]).1 (GoErr.prim "boom" (some ["g1"])) []⟩

/-- C3: `NewErrMessage` inherits the wrapped error's stack verbatim when
the wrapped error is non-nil and exposes one (no fresh capture), and
otherwise stores the freshly captured stack, so every constructed node
carries a stack. -/
theorem c3_stack_inheritance (h : String) (c : Int) (r : String) (fresh : List String) :
    (∀ (w : GoErr) (s : List String), hasTracer w = true → gstST w = some s →
        NewErrMessage h c r (some w) fresh = some (newErrMessage h c r (some w) s))
  ∧ (∀ w : GoErr, hasTracer w = false →
        NewErrMessage h c r (some w) fresh = some (newErrMessage h c r (some w) fresh))
  ∧ NewErrMessage h c r none fresh = some (newErrMessage h c r none fresh) := by
  refine ⟨?_, ?_, rfl⟩
  · intro w s hw hs
    simp [NewErrMessage, hw, hs]
  · intro w hw
    simp [NewErrMessage, hw]

/-- Witness for C3 at concrete inputs. -/
theorem c3_witness :
    hasTracer (GoErr.prim "boom" (some ["s1"])) = true
    ∧ gstST (GoErr.prim "boom" (some ["s1"])) = some ["s1"]
    ∧ NewErrMessage "H" 1 "m" (some (GoErr.prim "boom" (some ["s1"]))) ["f"] =
        some (newErrMessage "H" 1 "m" (some (GoErr.prim "boom" (some ["s1"]))) ["s1"]) :=
  ⟨rfl, rfl,
    (c3_stack_inheritance "H" 1 "m" ["f"]).1 (GoErr.prim "boom" (some ["s1"])) ["s1"] rfl rfl⟩

/-- C4: `Renew` is `Clone` followed by `Specify`; the result is the
prototype with only `Raw` rebound (Header, ErrCode, Err and Stack are
the prototype's), and two renewals of an `"x=%s"` prototype bind their
own argument with no cross-talk. -/
theorem c4_renew_isolation (P : ErrMessage) (args : List GoVal) :
    P.Renew args = (P.Clone).Specify args
  ∧ P.Renew args = ErrMessage.mk P.Header P.ErrCode (goSprintf P.Raw args) P.Err P.Stack
  ∧ (P.Raw = "x=%s" →
      (P.Renew [.str "1"]).Raw = "x=1" ∧ (P.Renew [.str "2"]).Raw = "x=2") := by
  obtain ⟨h, c, r, err, st⟩ := P
  refine ⟨rfl, rfl, ?_⟩
  intro hp
  simp only at hp
  subst hp
  exact ⟨rfl, rfl⟩

/-- Witness for C4 at a concrete prototype. -/
theorem c4_witness :
    (ErrMessage.mk "E" 7 "x=%s" none []).Raw = "x=%s"
    ∧ ((ErrMessage.mk "E" 7 "x=%s" none []).Renew [.str "1"]).Raw = "x=1"
    ∧ ((ErrMessage.mk "E" 7 "x=%s" none []).Renew [.str "2"]).Raw = "x=2" :=
  ⟨rfl, ((c4_renew_isolation (ErrMessage.mk "E" 7 "x=%s" none []) []).2.2 rfl).1,
    ((c4_renew_isolation (ErrMessage.mk "E" 7 "x=%s" none []) []).2.2 rfl).2⟩

/-- C2 counterexample: the DAS scenario node's compact text carries a
trailing newline (the head line is printed with `"%s: %s\n"`), so it is
not exactly the claimed text. -/
theorem c2_counterexample :
    (ErrMessage.mk "DAS" 1001
        (goSprintf "failed to connect to %s: %s" [.str "db1", .str "timeout"])
        none []).Error
      ≠ "DAS-1001: failed to connect to db1: timeout" := by
  decide

/-- C2 amended: the compact rendering (`Error()`, with `String()` and
the `s` verb agreeing with it) is the head line Code, colon-space, Raw
and a newline, followed by the wrapped error's `Error()` text when one
is present; the DAS scenario renders to the claimed text plus the
trailing newline. -/
theorem c2_compact_rendering (e : ErrMessage) :
    (e.Err = none → e.Error = e.Code ++ ": " ++ e.Raw ++ "\n")
  ∧ (∀ w, e.Err = some w → e.Error = e.Code ++ ": " ++ e.Raw ++ "\n" ++ errString w)
  ∧ e.String = e.Error
  ∧ e.formatS = e.Error
  ∧ (ErrMessage.mk "DAS" 1001
        (goSprintf "failed to connect to %s: %s" [.str "db1", .str "timeout"])
        none []).Error
      = "DAS-1001: failed to connect to db1: timeout\n" := by
  obtain ⟨h, c, r, err, st⟩ := e
  refine ⟨?_, ?_, rfl, rfl, by decide⟩
  · intro he
    simp only at he
    subst he
    show goSprintf "%s: %s\n" [.str (ErrMessage.mk h c r none st).Code, .str r] = _
    rw [sprintf_head]
  · intro w he
    simp only at he
    subst he
    show goSprintf "%s: %s\n" [.str (ErrMessage.mk h c r (some w) st).Code, .str r]
        ++ errString w = _
    rw [sprintf_head]

/-- Witness for C2 at a concrete node with no wrapped error. -/
theorem c2_witness :
    (ErrMessage.mk "DAS" 1001 "failed to connect to db1: timeout" none []).Err
        = (none : Option GoErr)
    ∧ (ErrMessage.mk "DAS" 1001 "failed to connect to db1: timeout" none []).Error
        = (ErrMessage.mk "DAS" 1001 "failed to connect to db1: timeout" none []).Code
          ++ ": " ++ "failed to connect to db1: timeout" ++ "\n" :=
  ⟨rfl, (c2_compact_rendering (ErrMessage.mk "DAS" 1001
      "failed to connect to db1: timeout" none [])).1 rfl⟩

/-- C6: `Specify` is total — a mismatch between the template's verbs and
the arguments degrades to a rendered string containing Go's
substitution-error markers instead of failing: any operand-count
mismatch leaves a `%!` marker in `Raw`, and a type-mismatched operand
(`%s` against an int, `%d` against a string) emits a marker where it
is substituted. -/
theorem c6_specify_degrades (e : ErrMessage) (args : List GoVal) :
    (verbCount e.Raw.data ≠ args.length →
        markerC <:+: ((e.Specify args).Raw).data)
  ∧ (∀ (i : Int) (rest : List Char) (as : List GoVal),
        markerC <:+: fmtChars ('%' :: 's' :: rest) (.int i :: as))
  ∧ (∀ (s : String) (rest : List Char) (as : List GoVal),
        markerC <:+: fmtChars ('%' :: 'd' :: rest) (.str s :: as)) := by
  refine ⟨?_, ?_, ?_⟩
  · intro hne
    exact marker_of_mismatch e.Raw.data args hne
  · intro i rest as
    have h1 : fmtChars ('%' :: 's' :: rest) (GoVal.int i :: as)
        = ('%' :: '!' :: ("s(int=".data ++ ((goIntDec i).data ++ [')'])))
          ++ fmtChars rest as := rfl
    rw [h1]
    exact marker_here ("s(int=".data ++ ((goIntDec i).data ++ [')'])) (fmtChars rest as)
  · intro s rest as
    have h1 : fmtChars ('%' :: 'd' :: rest) (GoVal.str s :: as)
        = ('%' :: '!' :: ("d(string=".data ++ (s.data ++ [')'])))
          ++ fmtChars rest as := rfl
    rw [h1]
    exact marker_here ("d(string=".data ++ (s.data ++ [')'])) (fmtChars rest as)

/-- Witness for C6: one argument against a two-verb template leaves a
marker in the rendered message. -/
theorem c6_witness :
    verbCount ("failed to connect to %s: %s" : String).data ≠
      ([GoVal.str "db1"] : List GoVal).length
    ∧ markerC <:+:
        (((ErrMessage.mk "DAS" 1001 "failed to connect to %s: %s" none []).Specify
            [GoVal.str "db1"]).Raw).data :=
  ⟨by decide,
    (c6_specify_degrades (ErrMessage.mk "DAS" 1001 "failed to connect to %s: %s" none [])
      [GoVal.str "db1"]).1 (by decide)⟩

/-- C7: when a node's stack was inherited from its wrapped error, the
verbose (`+v`) rendering never emits the node's own stack section in
addition: the output is entirely independent of the node's `Stack`
field, and for a wrapped stack-bearing leaf (a primitive carrying a
stack, or an `ErrMessage` with no further wrapping) exactly one stack
section appears for the chain link, showing the shared frames once. -/
theorem c7_single_stack_section (h : String) (c : Int) (r : String) (w : GoErr)
    (st : List String) (hinh : gstST w = some st) :
    (∀ st', goFormatV (.errMsg h c r (some w) st') = goFormatV (.errMsg h c r (some w) st))
  ∧ (∀ m fr, w = .prim m (some fr) →
      stackSecCount (goFormatV (.errMsg h c r (some w) st)) = 1 ∧ fr = st)
  ∧ (∀ h' c' r' st', w = .errMsg h' c' r' none st' →
      stackSecCount (goFormatV (.errMsg h c r (some w) st)) = 1 ∧
      VItem.stackSec st ∈ goFormatV (.errMsg h c r (some w) st)) := by
  refine ⟨?_, ?_, ?_⟩
  · intro st'
    cases w with
    | prim m pst => cases pst <;> simp [goFormatV]
    | multiNil => simp [goFormatV]
    | multi cs => simp [goFormatV]
    | errMsg h' c' r' e' s' => simp [goFormatV]
  · intro m fr hw
    subst hw
    have hfr : fr = st := by
      simpa [gstST] using hinh
    subst hfr
    refine ⟨?_, rfl⟩
    simp [goFormatV, stackSecCount]
  · intro h' c' r' st' hw
    subst hw
    have hst : st' = st := by
      simpa [gstST, emST] using hinh
    subst hst
    refine ⟨?_, ?_⟩
    · simp [goFormatV, stackSecCount]
    · simp [goFormatV]

/-- Witness for C7: a node wrapping a stack-bearing primitive, with the
inherited stack, renders exactly one stack section. -/
theorem c7_witness :
    gstST (GoErr.prim "boom" (some ["f1"])) = some ["f1"]
    ∧ stackSecCount (goFormatV (GoErr.errMsg "H" 2 "m"
        (some (GoErr.prim "boom" (some ["f1"]))) ["f1"])) = 1 :=
  ⟨rfl, ((c7_single_stack_section "H" 2 "m" (GoErr.prim "boom" (some ["f1"])) ["f1"] rfl).2.1
      "boom" ["f1"] rfl).1⟩
